import Mathlib

/-!
Verification of the delpresence-api authentication subsystems.

This development embeds, as pure Lean functions, the two subsystems of the
repository that the specification covers:

* the local JWT issuer/validator (`pkg/jwt/jwt.go`) and the campus token
  validator (`ValidateCampusToken`);
* the request-authentication middleware (`AuthMiddleware`, final iteration
  with mahasiswa and assistant route classes);
* the upstream credential manager (`AuthRoundTripper.RoundTrip`,
  `getNewToken` in `internal/utils/campus_client.go`);
* the refresh-token repository (`TokenRepository.GetTokenByValue`).

Time is modelled as integer epoch seconds.  JSON claim values decoded by Go
into `interface\x7b\x7d` are modelled by `JsonVal`; JSON numbers appear to Go as
`float64`, and the tokens of interest carry integral values, so numbers are
modelled as `Int`.  The base64/JSON/signature machinery of the external JWT
library is abstracted: a token string is related to its decoded views by
oracle functions supplied as parameters, and the decision logic that the Go
code performs on the decoded views is translated literally.
-/

namespace DelPresence

/-- A JSON claim value as produced by Go `encoding/json` into an
`interface\x7b\x7d`: a number (`float64` in Go, integral here), a string, or any
other shape. -/
inductive JsonVal where
  | num (n : Int)
  | str (s : String)
  | other
deriving DecidableEq

/-- A decoded JWT payload: the claim map, in key order. -/
abbrev Claims := List (String × JsonVal)

/-- Map lookup on a decoded claim set (Go `mapClaims[key]`). -/
def lookupClaim (k : String) (cs : Claims) : Option JsonVal :=
  match cs.find? (fun p => p.1 == k) with
  | some p => some p.2
  | none => none

/-- Go `fmt.Sscanf(s, "%d", &result)` as used by `parseInt`: skip leading
spaces, read an optional sign and at least one digit; trailing input is
ignored. -/
def scanInt (s : String) : Option Int :=
  let cs := s.data.dropWhile (fun c => c == ' ')
  let signAndDigits : Bool × List Char :=
    match cs with
    | '-' :: rest => (true, rest)
    | '+' :: rest => (false, rest)
    | _ => (false, cs)
  let ds := signAndDigits.2.takeWhile Char.isDigit
  if ds.isEmpty then none
  else
    let n : Nat := ds.foldl (fun acc c => acc * 10 + (c.toNat - '0'.toNat)) 0
    some (if signAndDigits.1 then -(n : Int) else (n : Int))

/-- `strings.HasPrefix` (and Lean's `String.startsWith`), computably on the
character lists. -/
def strHasPrefix (s p : String) : Bool := p.data.isPrefixOf s.data

/-- Go `strings.Split(s, " ")` for the single-character separator, on
character lists: `Split("", " ") = [""]`, and adjacent separators produce
empty fields. -/
def splitChars (sep : Char) : List Char → List (List Char)
  | [] => [[]]
  | c :: rest =>
    match splitChars sep rest with
    | [] => [[]]
    | h :: t => if c = sep then [] :: h :: t else (c :: h) :: t

/-- `strings.Split(s, " ")`. -/
def splitOnSpace (s : String) : List String :=
  (splitChars ' ' s.data).map (fun cs => String.mk cs)

/-- Errors of the local jwt package (`ErrInvalidToken`, `ErrExpiredToken`),
plus the distinct "JWT_SECRET environment variable not set" error. -/
inductive TokErr where
  | invalid
  | expired
  | configMissing
deriving DecidableEq

/-- The result of `jwt.Parse` on a campus token with a dummy key and
`WithoutClaimsValidation`: either the string fails to parse at all
(`parseOk = false`; signature mismatches do NOT count as failures, the code
ignores `ErrSignatureInvalid`), or it parses to a claim map. -/
structure CampusToken where
  parseOk : Bool
  claims : Claims
deriving DecidableEq

/-- The `uid` type switch of `ValidateCampusToken`: `float64` and `int`
values are used directly, strings go through `parseInt`, anything else is
invalid. -/
def decodeUidVal : JsonVal → Option Int
  | .num n => some n
  | .str s => scanInt s
  | .other => none

/-- The structured-claims fallback of `ValidateCampusToken`: the payload is
unmarshalled into `CampusClaims\x7bUID int\x7d`; a missing `uid` leaves `UID = 0`
(rejected), a non-numeric `uid` fails the unmarshal (rejected), and the
expiry of `RegisteredClaims` is honoured when present as a number. -/
def campusStructuredFallback (now : Int) (cs : Claims) : Except TokErr Int :=
  match lookupClaim "uid" cs with
  | some (.num n) =>
    if n = 0 then .error .invalid
    else
      match lookupClaim "exp" cs with
      | some (.num e) => if now > e then .error .expired else .ok n
      | _ => .ok n
  | some _ => .error .invalid
  | none => .error .invalid

/-- `jwt.ValidateCampusToken` (`unnamed/part_014`): parse the token with a
dummy key ignoring signature errors, read a numeric-or-numeric-string `uid`
from the map claims, check the `exp` claim only when it is a JSON number
(`time.Now().After(expTime)` is a strict comparison), and fall back to
structured claims when `uid` is absent from the map. -/
def ValidateCampusToken (now : Int) (tok : CampusToken) : Except TokErr Int :=
  if !tok.parseOk then .error .invalid
  else
    match lookupClaim "uid" tok.claims with
    | some uidVal =>
      match decodeUidVal uidVal with
      | none => .error .invalid
      | some userID =>
        match lookupClaim "exp" tok.claims with
        | some (.num e) =>
          if now > e then .error .expired else .ok userID
        | _ => .ok userID
    | none => campusStructuredFallback now tok.claims

/-- The claim set of a locally issued token (`CustomClaims` in
`pkg/jwt/jwt.go`). -/
structure LocalClaims where
  userID : Nat
  nimNip : String
  firstName : String
  middleName : String
  lastName : String
  email : String
  expiresAt : Int
  issuedAt : Int
  notBefore : Int
  issuer : String
  subject : String
deriving DecidableEq

/-- A structurally well-formed signed JWT: its claims, the key it was signed
with, and whether its signing method is in the HMAC family. -/
structure SignedToken where
  claims : LocalClaims
  secret : String
  algHMAC : Bool
deriving DecidableEq

/-- `jwt.GenerateAccessToken`: fails when no signing secret is configured,
otherwise signs `CustomClaims` with HS256, expiry `now + expirySeconds`
(the configured `JWT_EXPIRY` duration, default 24h, already parsed to
seconds), `iat` and `nbf` set to now, issuer `delpresence-api`, subject the
decimal user id.  Returns the token and the expiry time. -/
def GenerateAccessToken (secret : String) (expirySeconds : Int) (now : Int)
    (userID : Nat) (nimNip firstName middleName lastName email : String) :
    Except String (SignedToken × Int) :=
  if secret = "" then .error "JWT_SECRET environment variable not set"
  else
    let expiryTime := now + expirySeconds
    .ok ({ claims :=
            { userID := userID, nimNip := nimNip, firstName := firstName
              middleName := middleName, lastName := lastName, email := email
              expiresAt := expiryTime, issuedAt := now, notBefore := now
              issuer := "delpresence-api", subject := toString userID }
           secret := secret, algHMAC := true }, expiryTime)

/-- `jwt.ValidateToken`: fails when no secret is configured; parses the
string (an undecodable string is `none` here), requires an HMAC signing
method (keyfunc error, surfaced as `ErrInvalidToken`), verifies the
signature against the configured secret, and then validates claims the way
golang-jwt v5 does: expired when `now` is not before `exp` (this error is
detected first via `errors.Is(err, jwt.ErrTokenExpired)`), not yet valid
when `now` is before `nbf` (surfaced as `ErrInvalidToken`). -/
def ValidateToken (secret : String) (now : Int) (tok : Option SignedToken) :
    Except TokErr LocalClaims :=
  if secret = "" then .error .configMissing
  else
    match tok with
    | none => .error .invalid
    | some t =>
      if !t.algHMAC then .error .invalid
      else if t.secret ≠ secret then .error .invalid
      else if t.claims.expiresAt ≤ now then .error .expired
      else if now < t.claims.notBefore then .error .invalid
      else .ok t.claims

/-! ## Request Authenticator (`AuthMiddleware`, final iteration) -/

/-- A value stored in the gin request context by `c.Set`. -/
inductive CtxVal where
  | natV (n : Nat)
  | intV (i : Int)
  | strV (s : String)
  | boolV (b : Bool)
deriving DecidableEq

/-- How the middleware terminates: pass through a public path, abort with an
HTTP status and error message (`c.JSON` + `c.Abort`), or hand off to the
handler (`c.Next` after populating the context). -/
inductive Decision where
  | publicPass
  | abort (status : Nat) (msg : String)
  | handler
deriving DecidableEq

/-- The observable result of the middleware: the request-scoped context
entries it wrote (in `c.Set` order) and its terminal decision. -/
structure MwResult where
  ctx : List (String × CtxVal)
  decision : Decision
deriving DecidableEq

/-- A local user row as read by `UserRepository.GetUserByID`. -/
structure UserRec where
  id : Nat
  userType : String
  email : String
  firstName : String
  middleName : String
  lastName : String
deriving DecidableEq

/-- Outcome of the credential-store lookup: the row, `ErrUserNotFound`, or
any other database error. -/
inductive UserLookup where
  | found (u : UserRec)
  | notFound
  | dbError
deriving DecidableEq

/-- Go's `uint(i)` conversion of an `int` (64-bit two's complement wrap). -/
def toUint64 (i : Int) : Nat := (i % (2 ^ 64 : Int)).toNat

/-- The identity-flexible route class: paths of the student or assistant
domain (`isMahasiswaEndpoint || isAssistantEndpoint`). -/
def isFlexPath (path : String) : Bool :=
  strHasPrefix path "/api/v1/mahasiswa" || strHasPrefix path "/api/v1/assistant"

/-- Whether the decoded claim set carries `exp` as a JSON number (the only
shape in which the campus validator checks expiry). -/
def expIsNumber (cs : Claims) : Bool :=
  match lookupClaim "exp" cs with
  | some (.num _) => true
  | _ => false

/-- The heart of `AuthMiddleware` (gin middleware, `unnamed/part_009` final
iteration), after the bearer token string has been extracted from the
header: reject tokens shorter than 20 characters; on mahasiswa/assistant
paths try campus validation first and on success publish
`user_id`/`campus_user_id`/`campus_authenticated` without any store lookup;
otherwise validate the local token and cross-check the store; finally, on
non-mahasiswa/non-assistant paths only, fall back to campus validation; if
everything failed abort 401 with the generic message.

`store` is the credential store (`GetUserByID`), `campusOf` and `localOf`
relate the token string to its campus-parse and local-parse views. -/
def authWithToken (now : Int) (secret : String) (store : Nat → UserLookup)
    (campusOf : String → CampusToken) (localOf : String → Option SignedToken)
    (path tokenString : String) : MwResult :=
  if tokenString.length < 20 then
    { ctx := [], decision := .abort 401 "Invalid token" }
  else
    let isFlex := isFlexPath path
    let case1 : Option MwResult :=
      if isFlex then
        match ValidateCampusToken now (campusOf tokenString) with
        | .ok campusUserID =>
          some { ctx := [("user_id", .natV (toUint64 campusUserID)),
                         ("campus_user_id", .intV campusUserID),
                         ("campus_authenticated", .boolV true)],
                 decision := .handler }
        | .error _ => none
      else none
    match case1 with
    | some r => r
    | none =>
      match ValidateToken secret now (localOf tokenString) with
      | .ok claims =>
        match store claims.userID with
        | .found user =>
          { ctx := [("user_id", .natV user.id),
                    ("user_type", .strV user.userType),
                    ("email", .strV user.email),
                    ("first_name", .strV user.firstName),
                    ("middle_name", .strV user.middleName),
                    ("last_name", .strV user.lastName)],
            decision := .handler }
        | .notFound => { ctx := [], decision := .abort 401 "User not found" }
        | .dbError => { ctx := [], decision := .abort 500 "Database error" }
      | .error _ =>
        if !isFlex then
          match ValidateCampusToken now (campusOf tokenString) with
          | .ok campusUserID =>
            { ctx := [("user_id", .natV (toUint64 campusUserID)),
                      ("campus_user_id", .intV campusUserID),
                      ("campus_authenticated", .boolV true)],
              decision := .handler }
          | .error _ =>
            { ctx := [], decision := .abort 401 "Invalid or expired token" }
        else { ctx := [], decision := .abort 401 "Invalid or expired token" }

/-- `AuthMiddleware` end to end: health paths bypass authentication, the
`Authorization` header must be present and of shape `Bearer <token>`
(exactly two space-separated parts, literal `Bearer` scheme), then
`authWithToken` decides.  A missing header reads as `""` via
`c.GetHeader`. -/
def AuthMiddleware (now : Int) (secret : String) (store : Nat → UserLookup)
    (campusOf : String → CampusToken) (localOf : String → Option SignedToken)
    (path authHeader : String) : MwResult :=
  if strHasPrefix path "/api/v1/health" then
    { ctx := [], decision := .publicPass }
  else if authHeader = "" then
    { ctx := [], decision := .abort 401 "Authorization header is missing" }
  else
    match splitOnSpace authHeader with
    | [scheme, tokenString] =>
      if scheme = "Bearer" then
        authWithToken now secret store campusOf localOf path tokenString
      else { ctx := [], decision := .abort 401 "Invalid authorization header format" }
    | _ => { ctx := [], decision := .abort 401 "Invalid authorization header format" }

/-- The context shape published on the campus-authentication success path. -/
def campusCtx (campusUserID : Int) : List (String × CtxVal) :=
  [("user_id", .natV (toUint64 campusUserID)),
   ("campus_user_id", .intV campusUserID),
   ("campus_authenticated", .boolV true)]

/-- The context shape published on the local-authentication success path. -/
def localCtx (user : UserRec) : List (String × CtxVal) :=
  [("user_id", .natV user.id),
   ("user_type", .strV user.userType),
   ("email", .strV user.email),
   ("first_name", .strV user.firstName),
   ("middle_name", .strV user.middleName),
   ("last_name", .strV user.lastName)]

/-! ## Upstream Credential Manager (`campus_client.go`) -/

/-- The cached upstream credential triple (`TokenCache` without its lock). -/
structure Triple where
  authToken : String
  refreshToken : String
  expiresAt : Int
deriving DecidableEq

/-- Outcome of one base-transport round trip: transport error or a response
with an HTTP status. -/
inductive SendOutcome where
  | netErr
  | resp (status : Nat)
deriving DecidableEq

/-- The value returned by a successful `getNewToken` run. -/
structure NewTok where
  token : String
  refreshToken : String
  expiresAt : Int
deriving DecidableEq

/-- Errors `AuthRoundTripper.RoundTrip` can return. -/
inductive RTErr where
  | authFailed
  | refreshFailed
  | network
deriving DecidableEq

instance {ε α : Type} [DecidableEq ε] [DecidableEq α] : DecidableEq (Except ε α) := fun x y =>
  match x, y with
  | .ok a, .ok b => if h : a = b then .isTrue (by rw [h]) else .isFalse (by simp [h])
  | .error a, .error b => if h : a = b then .isTrue (by rw [h]) else .isFalse (by simp [h])
  | .ok _, .error _ => .isFalse (by simp)
  | .error _, .ok _ => .isFalse (by simp)

/-- Observable trace of one `RoundTrip` call: how many `getNewToken` calls
were made before the first send (staleness refresh) and after it
(401-forced refresh), each base-transport send with the bearer token it
carried, the cache contents afterwards, and the value returned to the
caller. -/
structure RTTrace where
  preAuths : Nat
  postAuths : Nat
  sends : List (String × SendOutcome)
  finalCache : Triple
  result : Except RTErr Nat
deriving DecidableEq

/-- The staleness test of `RoundTrip`:
`token == "" || time.Now().Add(30*time.Second).After(expiresAt)` —
note `After` is a strict comparison. -/
def tokenStale (now : Int) (cache : Triple) : Bool :=
  cache.authToken == "" || decide (now + 30 > cache.expiresAt)

/-- The send-and-retry tail of `RoundTrip`: send with the bearer token; a
transport error propagates; on a 401 close the body, force one
`getNewToken`, store the new triple, and retry exactly once with the new
token, returning whatever the retry yields; any other status is returned
as-is.  `auth i` is the outcome of the (i+1)-th `getNewToken` call of this
`RoundTrip` invocation, `send i tok` the outcome of the (i+1)-th
base-transport send when it carries bearer token `tok`. -/
def sendPhase (cache1 : Triple) (token : String) (preAuths : Nat)
    (auth : Nat → Except Unit NewTok) (send : Nat → String → SendOutcome)
    (authIdx : Nat) : RTTrace :=
  match send 0 token with
  | .netErr =>
    { preAuths := preAuths, postAuths := 0, sends := [(token, .netErr)],
      finalCache := cache1, result := .error .network }
  | .resp st =>
    if st = 401 then
      match auth authIdx with
      | .error _ =>
        { preAuths := preAuths, postAuths := 1, sends := [(token, .resp 401)],
          finalCache := cache1, result := .error .refreshFailed }
      | .ok nt2 =>
        let cache2 : Triple :=
          { authToken := nt2.token, refreshToken := nt2.refreshToken,
            expiresAt := nt2.expiresAt }
        { preAuths := preAuths, postAuths := 1,
          sends := [(token, .resp 401), (nt2.token, send 1 nt2.token)],
          finalCache := cache2,
          result :=
            match send 1 nt2.token with
            | .netErr => .error .network
            | .resp st2 => .ok st2 }
    else
      { preAuths := preAuths, postAuths := 0, sends := [(token, .resp st)],
        finalCache := cache1, result := .ok st }

/-- `AuthRoundTripper.RoundTrip`: requests to the auth endpoint pass through
untouched; otherwise snapshot the cached triple (under the read lock),
refresh it via `getNewToken` when stale (storing the new triple under the
write lock), inject the token as a bearer header, send, and on a 401
force-refresh once and retry once. -/
def RoundTrip (now : Int) (cache : Triple) (isAuthURL : Bool)
    (auth : Nat → Except Unit NewTok) (send : Nat → String → SendOutcome) :
    RTTrace :=
  if isAuthURL then
    { preAuths := 0, postAuths := 0, sends := [("", send 0 "")],
      finalCache := cache,
      result :=
        match send 0 "" with
        | .netErr => .error .network
        | .resp st => .ok st }
  else if tokenStale now cache then
    match auth 0 with
    | .error _ =>
      { preAuths := 1, postAuths := 0, sends := [], finalCache := cache,
        result := .error .authFailed }
    | .ok nt =>
      let cache1 : Triple :=
        { authToken := nt.token, refreshToken := nt.refreshToken,
          expiresAt := nt.expiresAt }
      sendPhase cache1 nt.token 1 auth send 1
  else
    sendPhase cache cache.authToken 0 auth send 0

/-! ## `getNewToken` and expiry extraction -/

/-- `models.CampusAuthResponse` as far as `getNewToken` reads it, or an
unparseable body. -/
inductive AuthBody where
  | unparseable
  | parsed (result : Bool) (errMsg : String) (token : String) (refreshTok : String)
deriving DecidableEq

/-- Outcome of the login HTTP exchange: `client.Do` fails, the body read
fails, or a status plus body is obtained. -/
inductive LoginOutcome where
  | netErr
  | readErr (status : Nat)
  | respBody (status : Nat) (body : AuthBody)
deriving DecidableEq

/-- Error cases of `getNewToken`. -/
inductive GNTErr where
  | network
  | readBody
  | badStatus (st : Nat)
  | authRejected (msg : String)
  | parseFailed
  | emptyToken
deriving DecidableEq

/-- `extractExpiryFromToken`: decode the token's payload (`payloadOf`
abstracts the base64url + JSON decode, `none` when the token does not
decode to a claim map) and read a numeric `exp` claim; in every other case
fall back to `now + 30` minutes. -/
def extractExpiryFromToken (now : Int) (payloadOf : String → Option Claims)
    (tok : String) : Int :=
  match payloadOf tok with
  | none => now + 1800
  | some cs =>
    match lookupClaim "exp" cs with
    | some (.num e) => e
    | _ => now + 1800

/-- `getNewToken`: POST the service-account form to the auth endpoint; fail
on transport error, on a body-read error, on a non-200 status, on an
unparseable body, on `result = false`, or on an empty token; otherwise
return the token, the refresh token, and the expiry extracted from the
token itself. -/
def getNewToken (now : Int) (payloadOf : String → Option Claims)
    (login : LoginOutcome) : Except GNTErr NewTok :=
  match login with
  | .netErr => .error .network
  | .readErr _ => .error .readBody
  | .respBody st body =>
    if st ≠ 200 then .error (.badStatus st)
    else
      match body with
      | .unparseable => .error .parseFailed
      | .parsed ok errMsg tok rtok =>
        if !ok then .error (.authRejected errMsg)
        else if tok = "" then .error .emptyToken
        else .ok { token := tok, refreshToken := rtok,
                   expiresAt := extractExpiryFromToken now payloadOf tok }

/-- The spec's failure condition for the upstream login, stated in the
spec's own words for comparison with `getNewToken`: the login call fails
(transport error, unreadable response, or non-OK status), the response
cannot be parsed, the result flag is not success, or the returned token is
empty. -/
def loginFailureSpec (login : LoginOutcome) : Bool :=
  match login with
  | .netErr => true
  | .readErr _ => true
  | .respBody st body =>
    decide (st ≠ 200) ||
    (match body with
     | .unparseable => true
     | .parsed ok _ tok _ => !ok || decide (tok = ""))

/-- Whether an `Except` is a success. -/
def exceptIsOk : Except ε α → Bool
  | .ok _ => true
  | .error _ => false

/-! ## Refresh-token repository (`TokenRepository.GetTokenByValue`) -/

/-- A row of the refresh-token table.  `rowId` is the primary key; the
store list is kept in primary-key order, so gorm's `First` is the first
list match and `Delete(&token)` removes the row with that primary key. -/
structure TokenRow where
  rowId : Nat
  userId : Nat
  token : String
  expiresAt : Int
deriving DecidableEq

/-- Errors of the token repository relevant to reads. -/
inductive TokenRepoErr where
  | tokenNotFound
  | tokenExpired
deriving DecidableEq

/-- `TokenRepository.GetTokenByValue`: select the first row whose token
column matches; absent rows give `ErrTokenNotFound`; a row whose
`ExpiresAt` is strictly before now is deleted during the read and
`ErrTokenExpired` is returned; otherwise the row is returned.  The function
returns the read result together with the store contents afterwards. -/
def GetTokenByValue (now : Int) (db : List TokenRow) (tokenStr : String) :
    Except TokenRepoErr TokenRow × List TokenRow :=
  match db.find? (fun r => r.token == tokenStr) with
  | none => (.error .tokenNotFound, db)
  | some row =>
    if row.expiresAt < now then
      (.error .tokenExpired, db.filter (fun r => r.rowId ≠ row.rowId))
    else (.ok row, db)

/-! ## Lock discipline of the stale-path refresh (`RoundTrip`, lines 57-104)

The synchronization skeleton of the stale path is embedded as the literal
sequence of lock, authentication, store, and send steps the source
performs, so that statements about what happens under which lock are
statements about that sequence. -/

/-- One synchronization-relevant step of `RoundTrip`. -/
inductive LockAction where
  | rLock
  | rUnlock
  | wLock
  | wUnlock
  | authCall
  | storeTriple
  | sendReq
deriving DecidableEq

/-- The step sequence of `RoundTrip` on the stale path: snapshot the triple
under the read lock, release it, call `getNewToken` with no lock held,
then take the write lock only to store the triple, release it, and send. -/
def staleRefreshActions : List LockAction :=
  [.rLock, .rUnlock, .authCall, .wLock, .storeTriple, .wUnlock, .sendReq]

/-- Whether some `authCall` in the sequence runs while the write lock is
held (`held` is the lock state on entry). -/
def authCallUnderWriteLock : List LockAction → Bool → Bool
  | [], _ => false
  | a :: rest, held =>
    match a with
    | .wLock => authCallUnderWriteLock rest true
    | .wUnlock => authCallUnderWriteLock rest false
    | .authCall => held || authCallUnderWriteLock rest held
    | _ => authCallUnderWriteLock rest held

/-! ### Two racing callers

Each lock-protected region of the source touches the whole triple and is
serialized by the lock, so it is modelled as one atomic step: `snapshot`
reads the triple under the read lock, `store` writes all three fields under
the write lock.  Each thread runs the `RoundTrip` prologue: snapshot, then,
if its snapshot is stale, authenticate (producing its own new triple) and
store it. -/

/-- Progress of one racing caller; phases after the snapshot remember the
triple the caller observed. -/
inductive TPhase where
  | start
  | afterSnap (snap : Triple)
  | afterAuth (snap : Triple)
  | doneT (snap : Triple)
deriving DecidableEq

/-- Shared cache plus the two callers' phases. -/
structure Sys where
  cache : Triple
  t0 : TPhase
  t1 : TPhase
deriving DecidableEq

/-- One step of a caller whose `getNewToken` yields the triple `nt`:
snapshot atomically, authenticate when the snapshot was stale (the second
component records that an upstream authentication call happened), store
the whole triple atomically.  A caller whose snapshot was fresh uses it
directly. -/
def threadStep (now : Int) (nt : Triple) (cache : Triple) :
    TPhase → Triple × TPhase × Bool
  | .start => (cache, .afterSnap cache, false)
  | .afterSnap s =>
    if tokenStale now s then (cache, .afterAuth s, true)
    else (cache, .doneT s, false)
  | .afterAuth s => (nt, .doneT s, false)
  | .doneT s => (cache, .doneT s, false)

/-- Run a schedule (`false` steps caller 0, `true` steps caller 1) from a
system state, counting upstream authentication calls. -/
def runSched (now : Int) (nt0 nt1 : Triple) :
    List Bool → Sys → Sys × Nat
  | [], s => (s, 0)
  | b :: rest, s =>
    let step := cond b (threadStep now nt1 s.cache s.t1)
      (threadStep now nt0 s.cache s.t0)
    let s2 := cond b { cache := step.1, t0 := s.t0, t1 := step.2.1 }
      { cache := step.1, t0 := step.2.1, t1 := s.t1 }
    let r := runSched now nt0 nt1 rest s2
    (r.1, (cond step.2.2 1 0) + r.2)

/-- The triples that can legitimately be observed in a race between two
callers over initial cache `c0`: the initial triple or either caller's
complete new triple — never a mixture of their fields. -/
def intact (c0 nt0 nt1 x : Triple) : Prop :=
  x = c0 ∨ x = nt0 ∨ x = nt1

/-- A phase observes only intact triples. -/
def phaseIntact (c0 nt0 nt1 : Triple) : TPhase → Prop
  | .start => True
  | .afterSnap s => intact c0 nt0 nt1 s
  | .afterAuth s => intact c0 nt0 nt1 s
  | .doneT s => intact c0 nt0 nt1 s

/-- The whole system observes only intact triples. -/
def sysIntact (c0 nt0 nt1 : Triple) (s : Sys) : Prop :=
  intact c0 nt0 nt1 s.cache ∧ phaseIntact c0 nt0 nt1 s.t0 ∧
    phaseIntact c0 nt0 nt1 s.t1

/-! ## Theorems -/

/-- Campus validation succeeds on a parseable token whose `uid` decodes and
whose `exp` is either not a JSON number or a number not in the past. -/
theorem validateCampus_ok (now : Int) (cs : Claims) (v : JsonVal) (u : Int)
    (huid : lookupClaim "uid" cs = some v)
    (hdec : decodeUidVal v = some u)
    (hexp : expIsNumber cs = false ∨
      ∃ e : Int, lookupClaim "exp" cs = some (.num e) ∧ now ≤ e) :
    ValidateCampusToken now ⟨true, cs⟩ = .ok u := by
  unfold ValidateCampusToken
  simp only [Bool.not_true, Bool.false_eq_true, if_false, huid, hdec]
  rcases hexp with hnum | ⟨e, he, hle⟩
  · unfold expIsNumber at hnum
    rcases hlk : lookupClaim "exp" cs with _ | w
    · simp [hlk]
    · rcases w with n | s | _
      · rw [hlk] at hnum; simp at hnum
      · simp [hlk]
      · simp [hlk]
  · rw [he]
    simp only
    rw [if_neg (by omega)]

/-- C6: for every identity and every configured signing secret, a token
produced by `GenerateAccessToken` validates back, at any instant from
issuance up to (strictly before) the issued expiry, to exactly the encoded
identity fields (user id, name parts, email), and validates to the
expired-token error once the clock reaches or passes that expiry. -/
theorem generate_validate_roundtrip
    (secret : String) (expirySeconds t0 now : Int) (userID : Nat)
    (nimNip firstName middleName lastName email : String)
    (tok : SignedToken) (expAt : Int)
    (hgen : GenerateAccessToken secret expirySeconds t0 userID nimNip
      firstName middleName lastName email = .ok (tok, expAt))
    (hmono : t0 ≤ now) :
    (now < expAt →
      ValidateToken secret now (some tok) = .ok tok.claims ∧
      tok.claims.userID = userID ∧
      tok.claims.firstName = firstName ∧
      tok.claims.middleName = middleName ∧
      tok.claims.lastName = lastName ∧
      tok.claims.email = email) ∧
    (expAt ≤ now → ValidateToken secret now (some tok) = .error .expired) := by
  unfold GenerateAccessToken at hgen
  by_cases hs : secret = ""
  · rw [if_pos hs] at hgen; exact absurd hgen (by simp)
  · rw [if_neg hs] at hgen
    simp only [Except.ok.injEq, Prod.mk.injEq] at hgen
    obtain ⟨htok, hexp⟩ := hgen
    subst htok hexp
    unfold ValidateToken
    rw [if_neg hs]
    constructor
    · intro hlt
      refine ⟨?_, rfl, rfl, rfl, rfl, rfl⟩
      simp only [Bool.not_true, Bool.false_eq_true, if_false, ne_eq,
        not_true_eq_false]
      rw [if_neg (by omega), if_neg (by omega)]
    · intro hge
      simp only [Bool.not_true, Bool.false_eq_true, if_false, ne_eq,
        not_true_eq_false]
      rw [if_pos (by omega)]

/-- Witness for `generate_validate_roundtrip`: a token issued at t=100 with
a 24h lifetime under secret "k1" validates to its own claims at t=200 and
is expired at t=90000. -/
theorem generate_validate_roundtrip_witness :
    (ValidateToken "k1" 200 (some
      { claims := { userID := 42, nimNip := "nim", firstName := "fn",
                    middleName := "mn", lastName := "ln", email := "em",
                    expiresAt := 86500, issuedAt := 100, notBefore := 100,
                    issuer := "delpresence-api", subject := "42" },
        secret := "k1", algHMAC := true }) = .ok
      { userID := 42, nimNip := "nim", firstName := "fn",
        middleName := "mn", lastName := "ln", email := "em",
        expiresAt := 86500, issuedAt := 100, notBefore := 100,
        issuer := "delpresence-api", subject := "42" }) ∧
    (ValidateToken "k1" 90000 (some
      { claims := { userID := 42, nimNip := "nim", firstName := "fn",
                    middleName := "mn", lastName := "ln", email := "em",
                    expiresAt := 86500, issuedAt := 100, notBefore := 100,
                    issuer := "delpresence-api", subject := "42" },
        secret := "k1", algHMAC := true }) = .error .expired) := by
  have h1 := generate_validate_roundtrip "k1" 86400 100 200 42 "nim" "fn"
    "mn" "ln" "em"
    { claims := { userID := 42, nimNip := "nim", firstName := "fn",
                  middleName := "mn", lastName := "ln", email := "em",
                  expiresAt := 86500, issuedAt := 100, notBefore := 100,
                  issuer := "delpresence-api", subject := "42" },
      secret := "k1", algHMAC := true } 86500 (by decide) (by decide)
  have h2 := generate_validate_roundtrip "k1" 86400 100 90000 42 "nim" "fn"
    "mn" "ln" "em"
    { claims := { userID := 42, nimNip := "nim", firstName := "fn",
                  middleName := "mn", lastName := "ln", email := "em",
                  expiresAt := 86500, issuedAt := 100, notBefore := 100,
                  issuer := "delpresence-api", subject := "42" },
      secret := "k1", algHMAC := true } 86500 (by decide) (by decide)
  exact ⟨(h1.1 (by decide)).1, h2.2 (by decide)⟩

/-- C9: in the map-claims path of the campus validator, the expiry check
only fires when `exp` decodes as a JSON number: a token with a decodable
`uid` whose `exp` is absent or a non-number is accepted at every instant,
even one past the encoded expiry. -/
theorem validateCampusToken_nonnumeric_exp_skipped
    (now : Int) (cs : Claims) (v : JsonVal) (u : Int)
    (huid : lookupClaim "uid" cs = some v)
    (hdec : decodeUidVal v = some u)
    (hexp : expIsNumber cs = false) :
    ValidateCampusToken now ⟨true, cs⟩ = .ok u :=
  validateCampus_ok now cs v u huid hdec (Or.inl hexp)

/-- Witness for `validateCampusToken_nonnumeric_exp_skipped`: a token whose
`exp` is the numeric string "100" is accepted at t=99999, far past the
instant the string encodes. -/
theorem validateCampusToken_nonnumeric_exp_skipped_witness :
    ValidateCampusToken 99999
      ⟨true, [("uid", JsonVal.num 5), ("exp", JsonVal.str "100")]⟩ = .ok 5 ∧
    (99999 : Int) > 100 :=
  ⟨validateCampusToken_nonnumeric_exp_skipped 99999
      [("uid", JsonVal.num 5), ("exp", JsonVal.str "100")]
      (JsonVal.num 5) 5 (by decide) (by decide) (by decide),
   by decide⟩

/-- C10: `GetTokenByValue` has a write side effect exactly on the
expired-row case: an absent row returns not-found and leaves the store
unchanged; a matching row whose expiry is in the past is removed from the
store during the read (the rows afterwards are exactly those with a
different primary key) and the expired error is returned; a matching
unexpired row is returned with the store unchanged. -/
theorem getTokenByValue_read_effects (now : Int) (db : List TokenRow)
    (t : String) :
    (db.find? (fun r => r.token == t) = none →
      GetTokenByValue now db t = (.error .tokenNotFound, db)) ∧
    (∀ row, db.find? (fun r => r.token == t) = some row →
      (row.expiresAt < now →
        GetTokenByValue now db t =
          (.error .tokenExpired, db.filter (fun r => r.rowId ≠ row.rowId)) ∧
        ∀ r, r ∈ (GetTokenByValue now db t).2 ↔
          (r ∈ db ∧ r.rowId ≠ row.rowId)) ∧
      (now ≤ row.expiresAt →
        GetTokenByValue now db t = (.ok row, db))) := by
  refine ⟨?_, ?_⟩
  · intro hn; simp [GetTokenByValue, hn]
  · intro row hr
    refine ⟨?_, ?_⟩
    · intro hlt
      have heq : GetTokenByValue now db t =
          (.error .tokenExpired, db.filter (fun r => r.rowId ≠ row.rowId)) := by
        simp [GetTokenByValue, hr, hlt]
      refine ⟨heq, ?_⟩
      intro r
      rw [heq]
      simp [List.mem_filter]
    · intro hle
      simp [GetTokenByValue, hr, show ¬(row.expiresAt < now) by omega]

/-- Witness for `getTokenByValue_read_effects`: reading the expired row
`"aa"` at t=100 deletes it and returns the expired error; the unexpired
row `"bb"` survives. -/
theorem getTokenByValue_read_effects_witness :
    GetTokenByValue 100
      [⟨1, 10, "aa", 50⟩, ⟨2, 11, "bb", 500⟩] "aa" =
      (.error .tokenExpired, [⟨2, 11, "bb", 500⟩]) := by
  have h := (getTokenByValue_read_effects 100
    [⟨1, 10, "aa", 50⟩, ⟨2, 11, "bb", 500⟩] "aa").2
    ⟨1, 10, "aa", 50⟩ (by decide)
  have h2 := (h.1 (by decide)).1
  rw [h2]
  decide

/-- C7: `getNewToken` fails exactly when the login HTTP exchange fails
(transport error, unreadable body, non-200 status), the body cannot be
parsed, the result flag is not success, or the returned token is empty —
and on success the returned token is non-empty.  The operation consumes a
single login exchange, so no retry happens within it. -/
theorem getNewToken_failure_condition (now : Int)
    (payloadOf : String → Option Claims) (login : LoginOutcome) :
    exceptIsOk (getNewToken now payloadOf login) = !(loginFailureSpec login) ∧
    (∀ nt, getNewToken now payloadOf login = .ok nt → nt.token ≠ "") := by
  constructor
  · cases login with
    | netErr => rfl
    | readErr st => rfl
    | respBody st body =>
      by_cases hst : st = 200
      · subst hst
        cases body with
        | unparseable => rfl
        | parsed ok errMsg tok rtok =>
          cases ok with
          | false => simp [getNewToken, loginFailureSpec, exceptIsOk]
          | true =>
            by_cases ht : tok = "" <;>
              simp [getNewToken, loginFailureSpec, exceptIsOk, ht]
      · simp [getNewToken, loginFailureSpec, exceptIsOk, hst]
  · intro nt h
    cases login with
    | netErr => simp [getNewToken] at h
    | readErr st => simp [getNewToken] at h
    | respBody st body =>
      by_cases hst : st = 200
      · subst hst
        cases body with
        | unparseable => simp [getNewToken] at h
        | parsed ok errMsg tok rtok =>
          cases ok with
          | false => simp [getNewToken] at h
          | true =>
            by_cases ht : tok = ""
            · simp [getNewToken, ht] at h
            · simp [getNewToken, ht] at h
              rw [← h]
              exact ht
      · simp [getNewToken, hst] at h

/-- Witness for `getNewToken_failure_condition`: a 200 response whose body
parses with a success flag and token "tok123" yields a success carrying a
non-empty token. -/
theorem getNewToken_failure_condition_witness :
    exceptIsOk (getNewToken 0 (fun _ => none)
      (.respBody 200 (.parsed true "" "tok123" "r"))) = true ∧
    ("tok123" : String) ≠ "" := by
  have h := getNewToken_failure_condition 0 (fun _ => none)
    (.respBody 200 (.parsed true "" "tok123" "r"))
  exact ⟨h.1.trans (by decide),
    h.2 ⟨"tok123", "r", 1800⟩ (by decide)⟩

/-- `sendPhase` never performs a staleness refresh of its own: the pre-send
authentication count is whatever it was handed. -/
theorem sendPhase_preAuths (cache1 : Triple) (token : String) (preAuths : Nat)
    (auth : Nat → Except Unit NewTok) (send : Nat → String → SendOutcome)
    (authIdx : Nat) :
    (sendPhase cache1 token preAuths auth send authIdx).preAuths = preAuths := by
  unfold sendPhase
  rcases h0 : send 0 token with _ | st
  · rfl
  · by_cases h401 : st = 401
    · subst h401
      simp only [if_pos rfl]
      rcases auth authIdx with _ | nt2 <;> rfl
    · simp only [if_neg h401]

/-- The first send of `sendPhase` carries the token it was handed. -/
theorem sendPhase_first_token (cache1 : Triple) (token : String)
    (preAuths : Nat) (auth : Nat → Except Unit NewTok)
    (send : Nat → String → SendOutcome) (authIdx : Nat) :
    ((sendPhase cache1 token preAuths auth send authIdx).sends.map
      Prod.fst).head? = some token := by
  unfold sendPhase
  rcases h0 : send 0 token with _ | st
  · rfl
  · by_cases h401 : st = 401
    · subst h401
      simp only [if_pos rfl]
      rcases auth authIdx with _ | nt2 <;> rfl
    · simp [if_neg h401]

/-- The staleness test, spelled out. -/
theorem tokenStale_iff (now : Int) (cache : Triple) :
    tokenStale now cache = true ↔
      (cache.authToken = "" ∨ now + 30 > cache.expiresAt) := by
  simp [tokenStale]

/-- C4 (amended): a staleness re-authentication happens if and only if the
cached token is empty or `now + 30s` is STRICTLY past the cached expiry
(`time.Now().Add(30*time.Second).After(expiresAt)`); when the credential is
not stale in this strict sense, no pre-send authentication call is made and
the first send carries the cached token. -/
theorem roundTrip_refresh_iff_strictly_stale (now : Int) (cache : Triple)
    (auth : Nat → Except Unit NewTok) (send : Nat → String → SendOutcome) :
    ((RoundTrip now cache false auth send).preAuths =
      if cache.authToken = "" ∨ now + 30 > cache.expiresAt then 1 else 0) ∧
    (¬(cache.authToken = "" ∨ now + 30 > cache.expiresAt) →
      ((RoundTrip now cache false auth send).sends.map Prod.fst).head? =
        some cache.authToken) := by
  constructor
  · unfold RoundTrip
    by_cases hst : cache.authToken = "" ∨ now + 30 > cache.expiresAt
    · rw [if_pos ((tokenStale_iff now cache).2 hst), if_pos hst]
      simp only [Bool.false_eq_true, if_false]
      rcases auth 0 with _ | nt
      · rfl
      · exact sendPhase_preAuths _ _ _ _ _ _
    · rw [if_neg hst]
      have : tokenStale now cache = false := by
        rcases h : tokenStale now cache
        · rfl
        · exact absurd ((tokenStale_iff now cache).1 h) hst
      rw [this]
      simp only [Bool.false_eq_true, if_false]
      exact sendPhase_preAuths _ _ _ _ _ _
  · intro hst
    unfold RoundTrip
    have : tokenStale now cache = false := by
      rcases h : tokenStale now cache
      · rfl
      · exact absurd ((tokenStale_iff now cache).1 h) hst
    rw [this]
    simp only [Bool.false_eq_true, if_false]
    exact sendPhase_first_token _ _ _ _ _ _

/-- Counterexample to C4 as stated: with the cached expiry exactly at
`now + 30s` the claim's "at or past" condition holds (re-authentication
demanded), yet `RoundTrip` performs no authentication call and sends with
the cached token, because the code's `After` comparison is strict. -/
theorem roundTrip_refresh_boundary_cex :
    (RoundTrip 1000 ⟨"cachedtoken", "", 1030⟩ false
      (fun _ => .ok ⟨"newtoken", "r", 999999⟩)
      (fun _ _ => .resp 200)).preAuths = 0 ∧
    (RoundTrip 1000 ⟨"cachedtoken", "", 1030⟩ false
      (fun _ => .ok ⟨"newtoken", "r", 999999⟩)
      (fun _ _ => .resp 200)).sends = [("cachedtoken", .resp 200)] ∧
    (1000 : Int) + 30 ≥ 1030 := by decide

/-- Witness for `roundTrip_refresh_iff_strictly_stale`: a credential
expiring 100s from now is reused as-is. -/
theorem roundTrip_refresh_iff_strictly_stale_witness :
    (RoundTrip 0 ⟨"tok", "r", 100⟩ false
      (fun _ => .ok ⟨"newtoken", "r", 999999⟩)
      (fun _ _ => .resp 200)).preAuths = 0 ∧
    ((RoundTrip 0 ⟨"tok", "r", 100⟩ false
      (fun _ => .ok ⟨"newtoken", "r", 999999⟩)
      (fun _ _ => .resp 200)).sends.map Prod.fst).head? = some "tok" := by
  have h := roundTrip_refresh_iff_strictly_stale 0 ⟨"tok", "r", 100⟩
    (fun _ => .ok ⟨"newtoken", "r", 999999⟩) (fun _ _ => .resp 200)
  exact ⟨h.1.trans (by decide), h.2 (by decide)⟩

/-- C3: whenever the (first) upstream response is a 401, `RoundTrip`
performs exactly one forced re-authentication, replaces the cached triple
with the new one, and retries the original request exactly once with the
new token; the retry's outcome — including a second 401 — is returned to
the caller as-is, with no third send.  Both the fresh-credential path and
the stale path (where the 401 follows a staleness refresh) behave this
way. -/
theorem roundTrip_401_single_forced_refresh (now : Int) (cache : Triple)
    (auth : Nat → Except Unit NewTok) (send : Nat → String → SendOutcome) :
    (¬(cache.authToken = "" ∨ now + 30 > cache.expiresAt) →
      send 0 cache.authToken = .resp 401 →
      ∀ nt, auth 0 = .ok nt →
        RoundTrip now cache false auth send =
          { preAuths := 0, postAuths := 1,
            sends := [(cache.authToken, .resp 401), (nt.token, send 1 nt.token)],
            finalCache := ⟨nt.token, nt.refreshToken, nt.expiresAt⟩,
            result := match send 1 nt.token with
              | .netErr => .error .network
              | .resp st2 => .ok st2 }) ∧
    ((cache.authToken = "" ∨ now + 30 > cache.expiresAt) →
      ∀ nt0, auth 0 = .ok nt0 →
        send 0 nt0.token = .resp 401 →
        ∀ nt, auth 1 = .ok nt →
          RoundTrip now cache false auth send =
            { preAuths := 1, postAuths := 1,
              sends := [(nt0.token, .resp 401), (nt.token, send 1 nt.token)],
              finalCache := ⟨nt.token, nt.refreshToken, nt.expiresAt⟩,
              result := match send 1 nt.token with
                | .netErr => .error .network
                | .resp st2 => .ok st2 }) := by
  constructor
  · intro hst h401 nt hauth
    have hstale : tokenStale now cache = false := by
      rcases h : tokenStale now cache
      · rfl
      · exact absurd ((tokenStale_iff now cache).1 h) hst
    simp [RoundTrip, sendPhase, hstale, h401, hauth]
  · intro hst nt0 hauth0 h401 nt hauth1
    have hstale := (tokenStale_iff now cache).2 hst
    simp [RoundTrip, sendPhase, hstale, hauth0, h401, hauth1]

/-- Witness for `roundTrip_401_single_forced_refresh`: both sends return
401; the trace shows one forced refresh, a single retry with the fresh
token, the second 401 surfaced to the caller, and the cache replaced. -/
theorem roundTrip_401_single_forced_refresh_witness :
    RoundTrip 0 ⟨"oldtok", "orr", 5000⟩ false
      (fun _ => .ok ⟨"freshtok", "fr", 9000⟩)
      (fun _ _ => .resp 401) =
      { preAuths := 0, postAuths := 1,
        sends := [("oldtok", .resp 401), ("freshtok", .resp 401)],
        finalCache := ⟨"freshtok", "fr", 9000⟩,
        result := .ok 401 } := by
  have h := (roundTrip_401_single_forced_refresh 0 ⟨"oldtok", "orr", 5000⟩
    (fun _ => .ok ⟨"freshtok", "fr", 9000⟩) (fun _ _ => .resp 401)).1
    (by decide) (by decide) ⟨"freshtok", "fr", 9000⟩ (by decide)
  exact h.trans (by decide)

/-- C1: on identity-flexible paths (mahasiswa/assistant prefixes) a
parseable token carrying a decodable numeric `uid` claim that is not
expired is accepted with the campus identity published into the context —
for every credential store and every local-token view, i.e. without any
local validation or store lookup; on every other protected path, a local
token that verifies and is store-backed decides the request for every
campus view (local first), and the campus strategy decides only once local
validation has failed. -/
theorem authMiddleware_route_class_ordering (now : Int) (secret : String)
    (store : Nat → UserLookup) (campusOf : String → CampusToken)
    (localOf : String → Option SignedToken) (path tokenString : String) :
    (isFlexPath path = true → 20 ≤ tokenString.length →
      ∀ cs v u, campusOf tokenString = ⟨true, cs⟩ →
        lookupClaim "uid" cs = some v → decodeUidVal v = some u →
        (expIsNumber cs = false ∨
          ∃ e : Int, lookupClaim "exp" cs = some (.num e) ∧ now ≤ e) →
        authWithToken now secret store campusOf localOf path tokenString =
          { ctx := campusCtx u, decision := .handler }) ∧
    (isFlexPath path = false → 20 ≤ tokenString.length →
      ∀ claims user,
        ValidateToken secret now (localOf tokenString) = .ok claims →
        store claims.userID = .found user →
        authWithToken now secret store campusOf localOf path tokenString =
          { ctx := localCtx user, decision := .handler }) ∧
    (isFlexPath path = false → 20 ≤ tokenString.length →
      ∀ e u, ValidateToken secret now (localOf tokenString) = .error e →
        ValidateCampusToken now (campusOf tokenString) = .ok u →
        authWithToken now secret store campusOf localOf path tokenString =
          { ctx := campusCtx u, decision := .handler }) := by
  refine ⟨?_, ?_, ?_⟩
  · intro hflex hlen cs v u hco huid hdec hexp
    have hok : ValidateCampusToken now (campusOf tokenString) = .ok u := by
      rw [hco]; exact validateCampus_ok now cs v u huid hdec hexp
    simp [authWithToken, hflex, hok, campusCtx,
      show ¬(tokenString.length < 20) by omega]
  · intro hflex hlen claims user hval hstore
    simp [authWithToken, hflex, hval, hstore, localCtx,
      show ¬(tokenString.length < 20) by omega]
  · intro hflex hlen e u hval hok
    simp [authWithToken, hflex, hval, hok, campusCtx,
      show ¬(tokenString.length < 20) by omega]

/-- Witness for `authMiddleware_route_class_ordering`: a mahasiswa path
accepts the campus-shaped token against an empty store; an admin path is
decided by the store-backed local token; an admin path falls back to the
campus token when the local token does not parse. -/
theorem authMiddleware_route_class_ordering_witness :
    (authWithToken 500 "k1" (fun _ => .notFound)
      (fun _ => ⟨true, [("uid", JsonVal.num 7)]⟩) (fun _ => none)
      "/api/v1/mahasiswa/profile" "abcdefghij0123456789" =
      { ctx := campusCtx 7, decision := .handler }) ∧
    (authWithToken 500 "k1"
      (fun _ => .found ⟨3, "staff", "a@b", "fn", "mn", "ln"⟩)
      (fun _ => ⟨false, []⟩)
      (fun _ => some
        { claims := { userID := 3, nimNip := "", firstName := "fn",
                      middleName := "mn", lastName := "ln", email := "a@b",
                      expiresAt := 1000, issuedAt := 0, notBefore := 0,
                      issuer := "delpresence-api", subject := "3" },
          secret := "k1", algHMAC := true })
      "/api/v1/admin/users" "abcdefghij0123456789" =
      { ctx := localCtx ⟨3, "staff", "a@b", "fn", "mn", "ln"⟩,
        decision := .handler }) ∧
    (authWithToken 500 "k1" (fun _ => .notFound)
      (fun _ => ⟨true, [("uid", JsonVal.num 7)]⟩) (fun _ => none)
      "/api/v1/admin/users" "abcdefghij0123456789" =
      { ctx := campusCtx 7, decision := .handler }) := by
  have h1 := (authMiddleware_route_class_ordering 500 "k1"
    (fun _ => .notFound) (fun _ => ⟨true, [("uid", JsonVal.num 7)]⟩)
    (fun _ => none) "/api/v1/mahasiswa/profile" "abcdefghij0123456789").1
    (by decide) (by decide) [("uid", JsonVal.num 7)] (JsonVal.num 7) 7
    (by decide) (by decide) (by decide) (Or.inl (by decide))
  have h2 := (authMiddleware_route_class_ordering 500 "k1"
    (fun _ => .found ⟨3, "staff", "a@b", "fn", "mn", "ln"⟩)
    (fun _ => ⟨false, []⟩)
    (fun _ => some
      { claims := { userID := 3, nimNip := "", firstName := "fn",
                    middleName := "mn", lastName := "ln", email := "a@b",
                    expiresAt := 1000, issuedAt := 0, notBefore := 0,
                    issuer := "delpresence-api", subject := "3" },
        secret := "k1", algHMAC := true })
    "/api/v1/admin/users" "abcdefghij0123456789").2.1
    (by decide) (by decide)
    { userID := 3, nimNip := "", firstName := "fn", middleName := "mn",
      lastName := "ln", email := "a@b", expiresAt := 1000, issuedAt := 0,
      notBefore := 0, issuer := "delpresence-api", subject := "3" }
    ⟨3, "staff", "a@b", "fn", "mn", "ln"⟩ (by decide) (by decide)
  have h3 := (authMiddleware_route_class_ordering 500 "k1"
    (fun _ => .notFound) (fun _ => ⟨true, [("uid", JsonVal.num 7)]⟩)
    (fun _ => none) "/api/v1/admin/users" "abcdefghij0123456789").2.2
    (by decide) (by decide) .invalid 7 (by decide) (by decide)
  exact ⟨h1, h2, h3⟩

/-- Counterexample to C2 as stated: on a generic-protected path with a
local token that verifies, a store lookup returning not-found aborts the
request immediately with the cause-specific message "User not found" —
even though the same token would be accepted by the campus strategy — so
the second strategy is NOT attempted and the response is not the generic
message. -/
theorem authMiddleware_store_miss_no_fallback_cex :
    authWithToken 500 "k1" (fun _ => .notFound)
      (fun _ => ⟨true, [("uid", JsonVal.num 7)]⟩)
      (fun _ => some
        { claims := { userID := 9, nimNip := "", firstName := "",
                      middleName := "", lastName := "", email := "",
                      expiresAt := 1000, issuedAt := 0, notBefore := 0,
                      issuer := "delpresence-api", subject := "9" },
          secret := "k1", algHMAC := true })
      "/api/v1/attendance" "abcdefghij0123456789" =
      { ctx := [], decision := .abort 401 "User not found" } ∧
    ValidateCampusToken 500 ⟨true, [("uid", JsonVal.num 7)]⟩ = .ok 7 := by
  decide

/-- C2 (amended): the second strategy is attempted exactly when the
first-tried TOKEN VALIDATION fails: on generic paths a failed local
validation hands the decision to the campus strategy, and when both token
validations fail (either order) the response is the uniform generic
401 "Invalid or expired token"; but a local token that verifies
short-circuits the fallback — a store miss aborts 401 "User not found"
and a store error aborts 500 "Database error", in both cases without
attempting the campus strategy. -/
theorem authMiddleware_fallback_on_validation_failure_only (now : Int)
    (secret : String) (store : Nat → UserLookup)
    (campusOf : String → CampusToken) (localOf : String → Option SignedToken)
    (path tokenString : String) (hlen : 20 ≤ tokenString.length) :
    (isFlexPath path = false →
      ∀ e, ValidateToken secret now (localOf tokenString) = .error e →
        authWithToken now secret store campusOf localOf path tokenString =
          (match ValidateCampusToken now (campusOf tokenString) with
           | .ok u => { ctx := campusCtx u, decision := .handler }
           | .error _ =>
             { ctx := [], decision := .abort 401 "Invalid or expired token" })) ∧
    (isFlexPath path = true →
      ∀ ec el, ValidateCampusToken now (campusOf tokenString) = .error ec →
        ValidateToken secret now (localOf tokenString) = .error el →
        authWithToken now secret store campusOf localOf path tokenString =
          { ctx := [], decision := .abort 401 "Invalid or expired token" }) ∧
    (isFlexPath path = false →
      ∀ claims, ValidateToken secret now (localOf tokenString) = .ok claims →
        (store claims.userID = .notFound →
          authWithToken now secret store campusOf localOf path tokenString =
            { ctx := [], decision := .abort 401 "User not found" }) ∧
        (store claims.userID = .dbError →
          authWithToken now secret store campusOf localOf path tokenString =
            { ctx := [], decision := .abort 500 "Database error" })) := by
  refine ⟨?_, ?_, ?_⟩
  · intro hflex e hval
    rcases hc : ValidateCampusToken now (campusOf tokenString) with u | ec <;>
      simp [authWithToken, hflex, hval, hc, campusCtx,
        show ¬(tokenString.length < 20) by omega]
  · intro hflex ec el hc hval
    simp [authWithToken, hflex, hval, hc,
      show ¬(tokenString.length < 20) by omega]
  · intro hflex claims hval
    constructor <;> intro hstore <;>
      simp [authWithToken, hflex, hval, hstore,
        show ¬(tokenString.length < 20) by omega]

/-- Witness for `authMiddleware_fallback_on_validation_failure_only`: on an
admin path with an unparseable local token and an unparseable campus token
the response is the generic 401; with a verifying local token and a
not-found store the response is "User not found". -/
theorem authMiddleware_fallback_on_validation_failure_only_witness :
    (authWithToken 500 "k1" (fun _ => .notFound) (fun _ => ⟨false, []⟩)
      (fun _ => none) "/api/v1/admin/users" "abcdefghij0123456789" =
      { ctx := [], decision := .abort 401 "Invalid or expired token" }) ∧
    (authWithToken 500 "k1" (fun _ => .notFound) (fun _ => ⟨false, []⟩)
      (fun _ => some
        { claims := { userID := 9, nimNip := "", firstName := "",
                      middleName := "", lastName := "", email := "",
                      expiresAt := 1000, issuedAt := 0, notBefore := 0,
                      issuer := "delpresence-api", subject := "9" },
          secret := "k1", algHMAC := true })
      "/api/v1/admin/users" "abcdefghij0123456789" =
      { ctx := [], decision := .abort 401 "User not found" }) := by
  have h1 := (authMiddleware_fallback_on_validation_failure_only 500 "k1"
    (fun _ => .notFound) (fun _ => ⟨false, []⟩) (fun _ => none)
    "/api/v1/admin/users" "abcdefghij0123456789" (by decide)).1
    (by decide) .invalid (by decide)
  have h2 := (authMiddleware_fallback_on_validation_failure_only 500 "k1"
    (fun _ => .notFound) (fun _ => ⟨false, []⟩)
    (fun _ => some
      { claims := { userID := 9, nimNip := "", firstName := "",
                    middleName := "", lastName := "", email := "",
                    expiresAt := 1000, issuedAt := 0, notBefore := 0,
                    issuer := "delpresence-api", subject := "9" },
        secret := "k1", algHMAC := true })
    "/api/v1/admin/users" "abcdefghij0123456789" (by decide)).2.2
    (by decide)
    { userID := 9, nimNip := "", firstName := "", middleName := "",
      lastName := "", email := "", expiresAt := 1000, issuedAt := 0,
      notBefore := 0, issuer := "delpresence-api", subject := "9" }
    (by decide)
  exact ⟨h1.trans (by decide), h2.1 (by decide)⟩

/-- Outcome enumeration for `authWithToken`: a campus acceptance, a local
acceptance, or an abort with empty context. -/
theorem authWithToken_cases (now : Int) (secret : String)
    (store : Nat → UserLookup) (campusOf : String → CampusToken)
    (localOf : String → Option SignedToken) (path tokenString : String) :
    (∃ u, authWithToken now secret store campusOf localOf path tokenString =
      { ctx := campusCtx u, decision := .handler }) ∨
    (∃ user, authWithToken now secret store campusOf localOf path
      tokenString = { ctx := localCtx user, decision := .handler }) ∨
    (∃ st msg, authWithToken now secret store campusOf localOf path
      tokenString = { ctx := [], decision := .abort st msg }) := by
  unfold authWithToken
  by_cases hlen : tokenString.length < 20
  · simp only [if_pos hlen]
    exact Or.inr (Or.inr ⟨401, "Invalid token", rfl⟩)
  · simp only [if_neg hlen]
    by_cases hflex : isFlexPath path = true
    · simp only [hflex, if_true]
      rcases hc : ValidateCampusToken now (campusOf tokenString) with ec | u
      all_goals simp only [hc]
      · rcases hv : ValidateToken secret now (localOf tokenString) with ev | cl
        all_goals simp only [hv]
        · simp only [hflex, Bool.not_true, Bool.false_eq_true, if_false]
          exact Or.inr (Or.inr ⟨401, "Invalid or expired token", rfl⟩)
        · rcases hs : store cl.userID with user | _ | _
          all_goals simp only [hs]
          · exact Or.inr (Or.inl ⟨user, rfl⟩)
          · exact Or.inr (Or.inr ⟨401, "User not found", rfl⟩)
          · exact Or.inr (Or.inr ⟨500, "Database error", rfl⟩)
      · exact Or.inl ⟨u, rfl⟩
    · have hflex2 : isFlexPath path = false := by
        rcases h : isFlexPath path
        · rfl
        · exact absurd h hflex
      simp only [hflex2, Bool.false_eq_true, if_false]
      rcases hv : ValidateToken secret now (localOf tokenString) with ev | cl
      all_goals simp only [hv]
      · simp only [hflex2, Bool.not_false, if_true]
        rcases hc : ValidateCampusToken now (campusOf tokenString) with ec | u
        all_goals simp only [hc]
        · exact Or.inr (Or.inr ⟨401, "Invalid or expired token", rfl⟩)
        · exact Or.inl ⟨u, rfl⟩
      · rcases hs : store cl.userID with user | _ | _
        all_goals simp only [hs]
        · exact Or.inr (Or.inl ⟨user, rfl⟩)
        · exact Or.inr (Or.inr ⟨401, "User not found", rfl⟩)
        · exact Or.inr (Or.inr ⟨500, "Database error", rfl⟩)

/-- Every `authWithToken` outcome is either a rejection carrying an empty
context, or a hand-off carrying exactly one of the two success context
shapes. -/
theorem authWithToken_ctx_shape (now : Int) (secret : String)
    (store : Nat → UserLookup) (campusOf : String → CampusToken)
    (localOf : String → Option SignedToken) (path tokenString : String) :
    ((authWithToken now secret store campusOf localOf path
        tokenString).decision = .handler →
      (∃ u, (authWithToken now secret store campusOf localOf path
        tokenString).ctx = campusCtx u) ∨
      (∃ user, (authWithToken now secret store campusOf localOf path
        tokenString).ctx = localCtx user)) ∧
    ((authWithToken now secret store campusOf localOf path
        tokenString).decision ≠ .handler →
      (authWithToken now secret store campusOf localOf path
        tokenString).ctx = []) := by
  rcases authWithToken_cases now secret store campusOf localOf path
      tokenString with ⟨u, hu⟩ | ⟨user, hu⟩ | ⟨st, msg, hu⟩ <;> rw [hu]
  · exact ⟨fun _ => Or.inl ⟨u, rfl⟩, fun h => absurd rfl h⟩
  · exact ⟨fun _ => Or.inr ⟨user, rfl⟩, fun h => absurd rfl h⟩
  · exact ⟨fun h => absurd h (by simp), fun _ => rfl⟩

/-- Outcome enumeration for `AuthMiddleware`: a public bypass, an abort
with empty context, or the result of `authWithToken` on the extracted
bearer token. -/
theorem authMiddleware_outcome (now : Int) (secret : String)
    (store : Nat → UserLookup) (campusOf : String → CampusToken)
    (localOf : String → Option SignedToken) (path authHeader : String) :
    AuthMiddleware now secret store campusOf localOf path authHeader =
      { ctx := [], decision := .publicPass } ∨
    (∃ st msg, AuthMiddleware now secret store campusOf localOf path
      authHeader = { ctx := [], decision := .abort st msg }) ∨
    (∃ tokenString, AuthMiddleware now secret store campusOf localOf path
      authHeader =
      authWithToken now secret store campusOf localOf path tokenString) := by
  unfold AuthMiddleware
  by_cases hh : strHasPrefix path "/api/v1/health" = true
  · rw [if_pos hh]
    exact Or.inl rfl
  · rw [if_neg hh]
    by_cases he : authHeader = ""
    · rw [if_pos he]
      exact Or.inr (Or.inl ⟨401, "Authorization header is missing", rfl⟩)
    · rw [if_neg he]
      rcases hp : splitOnSpace authHeader with _ | ⟨scheme, rest⟩
      · simp only [hp]
        exact Or.inr (Or.inl ⟨401, "Invalid authorization header format", rfl⟩)
      · rcases rest with _ | ⟨tokenString, rest2⟩
        · simp only [hp]
          exact Or.inr (Or.inl ⟨401, "Invalid authorization header format", rfl⟩)
        · rcases rest2 with _ | _
          · simp only [hp]
            by_cases hb : scheme = "Bearer"
            · subst hb
              rw [if_pos rfl]
              exact Or.inr (Or.inr ⟨tokenString, rfl⟩)
            · rw [if_neg hb]
              exact Or.inr (Or.inl ⟨401, "Invalid authorization header format", rfl⟩)
          · simp only [hp]
            exact Or.inr (Or.inl ⟨401, "Invalid authorization header format", rfl⟩)

/-- C8: the middleware never publishes identity on a rejection path — every
abort (missing/malformed header, short token, failed validations, store
miss, store error) leaves the request context empty, as does the public
bypass — and on a hand-off to the handler the context is exactly one of
the two complete identity shapes (campus or local), never a partial or
mixed one. -/
theorem authMiddleware_no_partial_identity (now : Int) (secret : String)
    (store : Nat → UserLookup) (campusOf : String → CampusToken)
    (localOf : String → Option SignedToken) (path authHeader : String) :
    ((AuthMiddleware now secret store campusOf localOf path
        authHeader).decision = .handler →
      (∃ u, (AuthMiddleware now secret store campusOf localOf path
        authHeader).ctx = campusCtx u) ∨
      (∃ user, (AuthMiddleware now secret store campusOf localOf path
        authHeader).ctx = localCtx user)) ∧
    ((AuthMiddleware now secret store campusOf localOf path
        authHeader).decision ≠ .handler →
      (AuthMiddleware now secret store campusOf localOf path
        authHeader).ctx = []) := by
  rcases authMiddleware_outcome now secret store campusOf localOf path
      authHeader with hpub | ⟨st, msg, hab⟩ | ⟨tokenString, heq⟩
  · rw [hpub]
    exact ⟨fun h => absurd h (by simp), fun _ => rfl⟩
  · rw [hab]
    exact ⟨fun h => absurd h (by simp), fun _ => rfl⟩
  · rw [heq]
    exact authWithToken_ctx_shape now secret store campusOf localOf path
      tokenString

/-- Witness for `authMiddleware_no_partial_identity`: a malformed header is
rejected with an empty context, and a campus-authenticated mahasiswa
request carries exactly the campus context shape. -/
theorem authMiddleware_no_partial_identity_witness :
    (AuthMiddleware 500 "k1" (fun _ => .notFound) (fun _ => ⟨false, []⟩)
      (fun _ => none) "/api/v1/admin/users" "Basic abc").ctx = [] ∧
    (AuthMiddleware 500 "k1" (fun _ => .notFound)
      (fun _ => ⟨true, [("uid", JsonVal.num 7)]⟩) (fun _ => none)
      "/api/v1/mahasiswa/profile"
      "Bearer abcdefghij0123456789").ctx = campusCtx 7 := by
  have h1 := (authMiddleware_no_partial_identity 500 "k1"
    (fun _ => .notFound) (fun _ => ⟨false, []⟩) (fun _ => none)
    "/api/v1/admin/users" "Basic abc").2 (by decide)
  have h2 := (authMiddleware_no_partial_identity 500 "k1"
    (fun _ => .notFound) (fun _ => ⟨true, [("uid", JsonVal.num 7)]⟩)
    (fun _ => none) "/api/v1/mahasiswa/profile"
    "Bearer abcdefghij0123456789").1 (by decide)
  refine ⟨h1, ?_⟩
  rcases h2 with ⟨u, hu⟩ | ⟨user, huser⟩
  · exact hu.trans (by rw [← hu]; decide)
  · exfalso
    have h3 : (AuthMiddleware 500 "k1" (fun _ => .notFound)
        (fun _ => ⟨true, [("uid", JsonVal.num 7)]⟩) (fun _ => none)
        "/api/v1/mahasiswa/profile"
        "Bearer abcdefghij0123456789").ctx.length = 3 := by decide
    rw [huser] at h3
    simp [localCtx] at h3

/-- One atomic step of a racing caller preserves intactness of everything
it can write: the cache it leaves behind and the phase (with its recorded
snapshot) it moves to. -/
theorem threadStep_intact (now : Int) (c0 nt0 nt1 nt cache : Triple)
    (ph : TPhase) (hnt : intact c0 nt0 nt1 nt) (hc : intact c0 nt0 nt1 cache)
    (hp : phaseIntact c0 nt0 nt1 ph) :
    intact c0 nt0 nt1 (threadStep now nt cache ph).1 ∧
      phaseIntact c0 nt0 nt1 (threadStep now nt cache ph).2.1 := by
  cases ph with
  | start => exact ⟨hc, hc⟩
  | afterSnap s =>
    cases hst : tokenStale now s with
    | false =>
      simp only [threadStep, hst, Bool.false_eq_true, if_false]
      exact ⟨hc, hp⟩
    | true =>
      simp only [threadStep, hst, if_true]
      exact ⟨hc, hp⟩
  | afterAuth s => exact ⟨hnt, hp⟩
  | doneT s => exact ⟨hc, hp⟩

/-- Running any schedule of the two racing callers preserves intactness:
no reachable cache value or recorded snapshot mixes fields of different
refreshes. -/
theorem runSched_intact (now : Int) (c0 nt0 nt1 : Triple)
    (sched : List Bool) (s : Sys) (hs : sysIntact c0 nt0 nt1 s) :
    sysIntact c0 nt0 nt1 (runSched now nt0 nt1 sched s).1 := by
  induction sched generalizing s with
  | nil => exact hs
  | cons b rest ih =>
    obtain ⟨hc, h0, h1⟩ := hs
    cases b
    · have hstep := threadStep_intact now c0 nt0 nt1 nt0 s.cache s.t0
        (Or.inr (Or.inl rfl)) hc h0
      exact ih _ ⟨hstep.1, hstep.2, h1⟩
    · have hstep := threadStep_intact now c0 nt0 nt1 nt1 s.cache s.t1
        (Or.inr (Or.inr rfl)) hc h1
      exact ih _ ⟨hstep.1, h0, hstep.2⟩

/-- Counterexample to C5 as stated: in the embedded step sequence of the
stale-path refresh (`staleRefreshActions`, the literal order of lock,
authentication, store and send operations in `RoundTrip`), the
re-authentication call does NOT run while the exclusive write lock is
held — only the store of the triple does. -/
theorem staleRefresh_auth_outside_write_lock_cex :
    authCallUnderWriteLock staleRefreshActions false = false := by decide

/-- C5 (amended): the re-authentication call of the stale path runs outside
the write lock (only the snapshot read is under the read lock and only the
triple store is under the write lock); because snapshot and store are each
a single lock-protected critical section over the whole triple, no
interleaving of two racing callers lets any caller observe — or the cache
hold — a mixture of fields from different refreshes; but since the
authentication itself is unlocked, there is a schedule on which both
racing callers perform a redundant upstream re-authentication. -/
theorem staleRefresh_lock_discipline_amended :
    (authCallUnderWriteLock staleRefreshActions false = false) ∧
    (∀ (now : Int) (c0 nt0 nt1 : Triple) (sched : List Bool),
      sysIntact c0 nt0 nt1
        (runSched now nt0 nt1 sched
          { cache := c0, t0 := .start, t1 := .start }).1) ∧
    ((runSched 100 ⟨"a", "ra", 1000⟩ ⟨"b", "rb", 1000⟩
        [false, true, false, true, false, true]
        { cache := ⟨"", "", 0⟩, t0 := .start, t1 := .start }).2 = 2) := by
  refine ⟨by decide, ?_, by decide⟩
  intro now c0 nt0 nt1 sched
  exact runSched_intact now c0 nt0 nt1 sched _
    ⟨Or.inl rfl, trivial, trivial⟩

end DelPresence
